import Mathlib

/-!
Verification of the pattern-matching and formatting core of the
url-formatter Obsidian plugin (src/main.ts).

The core is embedded shallowly: the settings data as Lean structures,
the host services of the JS runtime (the RegExp engine reached through
new RegExp and String.match, and the URL constructor used by isUrl) as
explicit function-valued environments, and JS exceptions as
Except.error values that are absorbed exactly where the source has its
catch block.
-/

namespace UrlFormatter

/-- A rewrite rule, from interface UrlPattern in src/main.ts (lines
6-10).  The TS interface declares name, pattern and formatString;
persisted JSON objects are structurally typed, so a loaded object may
lack formatString and may in addition carry the legacy fields
captureGroupIndex, preposition and postposition read by loadSettings,
or an enabled property, which no code in src/main.ts ever reads.
An Option field with value none models a property that is absent (the
source only distinguishes absent from present via hasOwnProperty and
truthiness, and never stores a present-but-undefined property itself,
so absent and undefined are conflated here). -/
structure UrlPattern where
  name : String
  pattern : String
  formatString : Option String
  captureGroupIndex : Option Nat := none
  preposition : Option String := none
  postposition : Option String := none
  enabled : Option Bool := none
  deriving Repr, DecidableEq

/-- The settings object, from interface UrlFormatterSettings in
src/main.ts (lines 12-15). -/
structure UrlFormatterSettings where
  enabled : Bool
  urlPatterns : List UrlPattern
  deriving Repr, DecidableEq

/-- DEFAULT_SETTINGS from src/main.ts (lines 17-26). -/
def DEFAULT_SETTINGS : UrlFormatterSettings :=
  { enabled := true
    urlPatterns := [
      { name := "Tickets per company"
        pattern := "https:\\/\\/([A-Za-z0-9-]+)\\.example\\.com\\/([A-Z0-9-]+)"
        formatString := some "$2 ($1)" }] }

/-- The host regular-expression engine, an external capability of the
JS runtime.  exec p url is the combined outcome of new RegExp(p)
followed by url.match(regex), the two host calls at the start of the
try block of formatUrl: Except.error () when the RegExp constructor
throws on a malformed pattern; Except.ok none when the compiled
expression does not match url; Except.ok (some (full, groups)) for a
match, where full is match[0] (the matched text, always a string) and
groups lists match[1], match[2], ..., with none standing for a capture
group that did not participate in the match. -/
structure RegexEngine where
  exec : String → String → Except Unit (Option (String × List (Option String)))

/-- Global left-to-right non-overlapping replacement of the literal
character sequence pat by rep inside a character list.  This is the
behavior of the source's formattedDisplayText.replace call with the
regex built from the escaped literal placeholder and the g flag:
matching such a regex is literal substring search, and a global
replacement scans left to right, resuming after each replaced
occurrence.  The fuel argument is instantiated with the length of the
scanned list; every step either emits one character or consumes a
nonempty occurrence of pat, so that much fuel always suffices (the
source only ever calls this with a nonempty pat of the form dollar
sign followed by a decimal index). -/
def replaceFuel (pat rep : List Char) : Nat → List Char → List Char
  | _, [] => []
  | 0, s => s
  | fuel + 1, c :: rest =>
    if pat.isPrefixOf (c :: rest) then
      rep ++ replaceFuel pat rep fuel (List.drop pat.length (c :: rest))
    else
      c :: replaceFuel pat rep fuel rest

/-- str.replace with a global literal pattern, lifted to strings. -/
def replaceAll (s pat rep : String) : String :=
  String.mk (replaceFuel pat.data rep.data s.data.length s.data)

/-- The rendering loop of formatUrl (src/main.ts lines 134-139):
starting from the pattern's formatString, for i = 0, 1, ...,
match.length - 1 in ascending order, one global replacement of the
literal placeholder "$i" by match[i] (or the empty string when that
entry is undefined, per the source's match[i] or-else empty string).
arr is the JS match array: entry 0 the full match, entries 1 and up
the capture groups. -/
def renderTemplate (t : String) (arr : List (Option String)) : String :=
  arr.enum.foldl (fun acc iv => replaceAll acc ("$" ++ toString iv.1) (iv.2.getD "")) t

/-- One iteration of the formatUrl loop over a single pattern: the body
of the try block (src/main.ts lines 129-142).  Compile the pattern and
match it against the url; on a match, read formatString and render the
Markdown link.  Except.error models a JS exception reaching the catch
block: a RegExp compile failure, or the TypeError thrown by calling
.replace on an absent formatString (the match array always has at
least the full-match entry, so the replace loop always runs at least
once when a match exists). -/
def patternBody (env : RegexEngine) (url : String) (p : UrlPattern) :
    Except Unit (Option String) :=
  match env.exec p.pattern url with
  | Except.error _ => Except.error ()
  | Except.ok none => Except.ok none
  | Except.ok (some (full, groups)) =>
    match p.formatString with
    | none => Except.error ()
    | some t =>
      Except.ok (some ("[" ++ renderTemplate t (some full :: groups) ++ "](" ++ url ++ ")"))

/-- The observable outcome of one loop iteration after the catch block
(src/main.ts lines 143-145): an exception is logged and absorbed,
falling through to the next pattern exactly like a non-match. -/
def tryPattern (env : RegexEngine) (url : String) (p : UrlPattern) : Option String :=
  match patternBody env url p with
  | Except.error _ => none
  | Except.ok r => r

/-- The loop of formatUrl over the pattern list: the first pattern
whose iteration returns a rendered link decides the result; otherwise
fall through, and null (none) after the last pattern. -/
def formatUrlList (env : RegexEngine) (url : String) : List UrlPattern → Option String
  | [] => none
  | p :: ps =>
    match tryPattern env url p with
    | some r => some r
    | none => formatUrlList env url ps

/-- formatUrl (src/main.ts lines 126-150): iterate the configured
patterns in stored order and return the first rendered Markdown link,
or null (none) when no pattern produces one.  Note that the function
reads only settings.urlPatterns: the global enabled flag is checked by
the caller (createPasteHandler), not here. -/
def formatUrl (env : RegexEngine) (settings : UrlFormatterSettings) (url : String) :
    Option String :=
  formatUrlList env url settings.urlPatterns

/-- The paste handler decision logic of createPasteHandler
(src/main.ts lines 52-83), as the pure function of the settings and
the clipboard text that it computes: none means the default paste
proceeds unmodified, some f means the selection is replaced by f.
isUrlHost models the host URL constructor succeeding on the text (the
isUrl method, lines 117-124); clip = none models absent clipboardData;
the truthiness tests on the pasted text and on the formatUrl result
are the source's if (pastedText && plugin.isUrl(pastedText)) and
if (formattedText). -/
def pasteHandlerDecision (env : RegexEngine) (isUrlHost : String → Bool)
    (settings : UrlFormatterSettings) (clip : Option String) : Option String :=
  if settings.enabled = false then none
  else
    match clip with
    | none => none
    | some text =>
      if (text != "") && isUrlHost text then
        match formatUrl env settings text with
        | some f => if f != "" then some f else none
        | none => none
      else none

/-- The legacy-schema migration applied to each loaded pattern
(src/main.ts lines 92-109): a pattern lacking formatString but
possessing captureGroupIndex gets a synthesized
formatString = preposition + "$" + (captureGroupIndex or-else 0) +
postposition, where preposition and postposition are prepended and
appended only when truthy (present and non-empty, JS string
truthiness), and the returned object carries only name, pattern and
the new formatString.  Any other pattern is returned unchanged. -/
def migratePattern (p : UrlPattern) : UrlPattern :=
  if p.formatString.isNone && p.captureGroupIndex.isSome then
    let base := "$" ++ toString (p.captureGroupIndex.getD 0)
    let withPre :=
      match p.preposition with
      | some pre => if pre = "" then base else pre ++ base
      | none => base
    let withPost :=
      match p.postposition with
      | some post => if post = "" then withPre else withPre ++ post
      | none => withPre
    { name := p.name, pattern := p.pattern, formatString := some withPost }
  else p

/-- The shape of data returned by the host persistence layer
(loadData): a JSON object that may carry either settings key, or
nothing at all. -/
structure PersistedData where
  enabled : Option Bool := none
  urlPatterns : Option (List UrlPattern) := none
  deriving Repr

/-- loadSettings (src/main.ts lines 89-110):
Object.assign({}, DEFAULT_SETTINGS, persisted) is a per-key shallow
merge in which the persisted object's own properties win (and a null
or undefined persisted value contributes nothing), followed by the
legacy migration map over urlPatterns. -/
def loadSettings (persisted : Option PersistedData) : UrlFormatterSettings :=
  let d := persisted.getD {}
  let merged : UrlFormatterSettings :=
    { enabled := d.enabled.getD DEFAULT_SETTINGS.enabled
      urlPatterns := d.urlPatterns.getD DEFAULT_SETTINGS.urlPatterns }
  { merged with urlPatterns := merged.urlPatterns.map migratePattern }

/-! Concrete fixtures used by witnesses and counterexamples: small
regex-engine environments (tables of outcomes realizable by actual JS
regexes) and concrete patterns. -/

/-- Engine on which every pattern compiles and matches with full match
text M and no capture groups. -/
def envM : RegexEngine := ⟨fun _ _ => Except.ok (some ("M", []))⟩

/-- Engine for the first-match-wins scenario: pattern string P matches
with one capture group G, pattern string Q matches with no groups,
everything else does not match. -/
def envFirst : RegexEngine :=
  ⟨fun p _ =>
    if p = "P" then Except.ok (some ("M", [some "G"]))
    else if p = "Q" then Except.ok (some ("N", []))
    else Except.ok none⟩

/-- Engine for the malformed-pattern scenario: pattern string BAD
fails to compile, pattern string GOOD matches with one capture group
G, everything else does not match. -/
def envBadGood : RegexEngine :=
  ⟨fun p _ =>
    if p = "BAD" then Except.error ()
    else if p = "GOOD" then Except.ok (some ("M", [some "G"]))
    else Except.ok none⟩

/-- Match array of an 11-entry match (full match plus capture groups 1
to 10) in which group 1 captured A, group 10 captured B, and the other
groups captured the empty string. -/
def groupsTen : List (Option String) :=
  [some "A", some "", some "", some "", some "", some "", some "",
   some "", some "", some "B"]

/-- Engine on which every pattern matches with the 10-group match
array groupsTen. -/
def envTen : RegexEngine := ⟨fun _ _ => Except.ok (some ("F", groupsTen))⟩

/-- Match array of an 11-entry match in which group 1 captured x and
group 10 did not participate (undefined). -/
def groupsTenUndef : List (Option String) :=
  [some "x", some "", some "", some "", some "", some "", some "",
   some "", some "", none]

/-- Engine on which every pattern matches with the match array
groupsTenUndef. -/
def envTenUndef : RegexEngine := ⟨fun _ _ => Except.ok (some ("F", groupsTenUndef))⟩

/-- Engine on which no pattern matches. -/
def envNone : RegexEngine := ⟨fun _ _ => Except.ok none⟩

/-- A pattern rendering the constant label T. -/
def patT : UrlPattern := { name := "t", pattern := "P", formatString := some "T" }

/-- A pattern carrying an enabled property explicitly set to false. -/
def patDisabled : UrlPattern :=
  { name := "d", pattern := "P", formatString := some "X", enabled := some false }

/-- A second pattern carrying enabled = false, for the no-enabled-match
scenario. -/
def patDisabledR : UrlPattern :=
  { name := "d2", pattern := "P", formatString := some "R", enabled := some false }

/-- First pattern of the first-match-wins scenario. -/
def patFirst : UrlPattern :=
  { name := "first", pattern := "P", formatString := some "A$1", enabled := some true }

/-- Second pattern of the first-match-wins scenario. -/
def patSecond : UrlPattern :=
  { name := "second", pattern := "Q", formatString := some "B", enabled := some true }

/-- Pattern with a malformed expression. -/
def patBad : UrlPattern := { name := "bad", pattern := "BAD", formatString := some "Z" }

/-- Valid pattern following the malformed one. -/
def patGood : UrlPattern :=
  { name := "good", pattern := "GOOD", formatString := some "G=$1" }

/-- Pattern whose template is the two-digit placeholder for group 10. -/
def patTen : UrlPattern := { name := "ten", pattern := "X", formatString := some "$10" }

/-- Pattern rendering the constant label L. -/
def patL : UrlPattern := { name := "w", pattern := "P", formatString := some "L" }

/-- Pattern whose formatString property is absent: rendering it after a
match throws inside the try block. -/
def patNoFmt : UrlPattern := { name := "nofmt", pattern := "P", formatString := none }

/-- Pattern rendering the constant label ok. -/
def patOk : UrlPattern := { name := "ok", pattern := "P", formatString := some "ok" }

/-- The concrete legacy persisted pattern of the migration scenario:
no formatString, captureGroupIndex 2, preposition the five characters
I D colon space. -/
def legacyPatX : UrlPattern :=
  { name := "x", pattern := "p", formatString := none,
    captureGroupIndex := some 2, preposition := some "ID: " }

/-! ### Helper lemmas -/

/-- The per-pattern step never reads the enabled property. -/
theorem tryPattern_set_enabled (env : RegexEngine) (url : String) (p : UrlPattern)
    (e : Option Bool) :
    tryPattern env url { p with enabled := e } = tryPattern env url p := by
  cases p
  rfl

/-- When the engine yields no match for any pattern of the list, the
loop falls through to null. -/
theorem formatUrlList_none_of_no_match (env : RegexEngine) (url : String) :
    ∀ ps : List UrlPattern,
      (∀ p ∈ ps, ∀ m, env.exec p.pattern url ≠ Except.ok (some m)) →
      formatUrlList env url ps = none := by
  intro ps
  induction ps with
  | nil => intro _; rfl
  | cons p ps ih =>
    intro h
    have hp : tryPattern env url p = none := by
      cases hx : env.exec p.pattern url with
      | error e => simp [tryPattern, patternBody, hx]
      | ok o =>
        cases o with
        | none => simp [tryPattern, patternBody, hx]
        | some m => exact absurd hx (h p (by simp) m)
    simp only [formatUrlList, hp]
    exact ih fun q hq m => h q (List.mem_cons_of_mem p hq) m

/-- A successful per-pattern step always produces a Markdown link over
the original url. -/
theorem tryPattern_some_shape (env : RegexEngine) (url : String) (p : UrlPattern)
    (v : String) (h : tryPattern env url p = some v) :
    ∃ label, v = "[" ++ label ++ "](" ++ url ++ ")" := by
  unfold tryPattern patternBody at h
  cases hx : env.exec p.pattern url with
  | error e => simp [hx] at h
  | ok o =>
    cases o with
    | none => simp [hx] at h
    | some m =>
      obtain ⟨full, groups⟩ := m
      cases hft : p.formatString with
      | none => simp [hx, hft] at h
      | some t =>
        simp [hx, hft] at h
        exact ⟨renderTemplate t (some full :: groups), h.symm⟩

/-- A non-null loop result is always a Markdown link over the original
url. -/
theorem formatUrlList_wraps (env : RegexEngine) (url : String) :
    ∀ (ps : List UrlPattern) (r : String), formatUrlList env url ps = some r →
      ∃ label, r = "[" ++ label ++ "](" ++ url ++ ")" := by
  intro ps
  induction ps with
  | nil => intro r h; exact absurd h (by simp [formatUrlList])
  | cons p ps ih =>
    intro r h
    cases htp : tryPattern env url p with
    | none =>
      simp only [formatUrlList, htp] at h
      exact ih r h
    | some v =>
      simp only [formatUrlList, htp, Option.some.injEq] at h
      exact h ▸ tryPattern_some_shape env url p v htp

/-- The source's truthiness guard on the legacy preposition is the
same as prepending the field's value or the empty string. -/
theorem if_empty_prepend (pre base : String) :
    (if pre = "" then base else pre ++ base) = pre ++ base := by
  split_ifs with h
  · rw [h, String.empty_append]
  · rfl

/-- The source's truthiness guard on the legacy postposition is the
same as appending the field's value or the empty string. -/
theorem if_empty_append (w post : String) :
    (if post = "" then w else w ++ post) = w ++ post := by
  split_ifs with h
  · rw [h, String.append_empty]
  · rfl

/-! ### Claims -/

/-- C1 counterexample: with the global enabled flag false and a single
matching pattern, formatUrl itself still returns a rendered link, not
null — the flag is checked by the paste handler, not by formatUrl. -/
theorem formatUrl_ignores_global_flag_cex :
    (UrlFormatterSettings.mk false [patT]).enabled = false ∧
    formatUrl envM (UrlFormatterSettings.mk false [patT]) "https://a" =
      some "[T](https://a)" :=
  ⟨rfl, rfl⟩

/-- C1 (amended): when the global enabled flag is false, the paste
handler decision is none for every engine, url oracle, clipboard
content and pattern list — the paste proceeds unmodified and formatUrl
is never consulted. -/
theorem pasteHandler_disabled_no_replacement (env : RegexEngine)
    (isUrlHost : String → Bool) (s : UrlFormatterSettings) (clip : Option String)
    (hd : s.enabled = false) :
    pasteHandlerDecision env isUrlHost s clip = none := by
  simp [pasteHandlerDecision, hd]

/-- C1 witness: the amended statement at a concrete disabled settings
value with a matching pattern. -/
theorem pasteHandler_disabled_no_replacement_witness :
    pasteHandlerDecision envM (fun _ => true)
      (UrlFormatterSettings.mk false [patT]) (some "https://a") = none :=
  pasteHandler_disabled_no_replacement envM (fun _ => true)
    (UrlFormatterSettings.mk false [patT]) (some "https://a") rfl

/-- C2: first match wins.  If every pattern before p produces no
result and p's expression matches with formatString t, the result is
rendered from t — independent of the patterns after p, in particular
of a later enabled pattern q whose expression also matches. -/
theorem formatUrl_first_match_wins (env : RegexEngine) (enabledFlag : Bool)
    (pre : List UrlPattern) (p : UrlPattern) (mid : List UrlPattern)
    (q : UrlPattern) (post : List UrlPattern) (url full : String)
    (groups : List (Option String)) (t : String)
    (hpre : ∀ r ∈ pre, tryPattern env url r = none)
    (hpm : env.exec p.pattern url = Except.ok (some (full, groups)))
    (hpt : p.formatString = some t)
    (_hpe : p.enabled = some true) (_hqe : q.enabled = some true)
    (_hqm : ∃ m, env.exec q.pattern url = Except.ok (some m)) :
    formatUrl env ⟨enabledFlag, pre ++ p :: (mid ++ q :: post)⟩ url =
      some ("[" ++ renderTemplate t (some full :: groups) ++ "](" ++ url ++ ")") := by
  revert hpre
  induction pre with
  | nil =>
    intro _
    show formatUrlList env url (p :: (mid ++ q :: post)) = _
    simp [formatUrlList, tryPattern, patternBody, hpm, hpt]
  | cons r rs ih =>
    intro hpre
    show formatUrlList env url (r :: (rs ++ p :: (mid ++ q :: post))) = _
    have hr : tryPattern env url r = none := hpre r (by simp)
    simp only [formatUrlList, hr]
    exact ih fun x hx => hpre x (List.mem_cons_of_mem r hx)

/-- C2 witness: two enabled patterns both matching; the result is
rendered from the first pattern's template. -/
theorem formatUrl_first_match_wins_witness :
    formatUrl envFirst (UrlFormatterSettings.mk true [patFirst, patSecond]) "u" =
      some ("[" ++ renderTemplate "A$1" [some "M", some "G"] ++ "](" ++ "u" ++ ")") :=
  formatUrl_first_match_wins envFirst true [] patFirst [] patSecond [] "u" "M"
    [some "G"] "A$1" (by simp) rfl rfl rfl rfl ⟨("N", []), rfl⟩

/-- C3 (code bug): rendering is not simultaneous.  With ten capture
groups, template the group-10 placeholder, group 1 capturing A and
group 10 capturing B, the ascending sequential replacement loop lets
the pass for group 1 consume the prefix of the two-digit placeholder:
formatUrl renders A0, where a simultaneous (longest-index-first)
substitution yields B. -/
theorem formatUrl_sequential_render_bug :
    formatUrl envTen (UrlFormatterSettings.mk true [patTen]) "u" = some "[A0](u)" ∧
    renderTemplate "$10" (some "F" :: groupsTen) ≠ "B" :=
  ⟨rfl, by decide⟩

/-- C4 counterexample: a pattern whose persisted object carries
enabled explicitly set to false still produces the match result:
formatUrl never reads a per-pattern enabled property. -/
theorem formatUrl_disabled_pattern_matches_cex :
    patDisabled.enabled = some false ∧
    formatUrl envM (UrlFormatterSettings.mk true [patDisabled]) "u" = some "[X](u)" :=
  ⟨rfl, rfl⟩

/-- C4 (amended): formatUrl is oblivious to any per-pattern enabled
field — rewriting every pattern's enabled property arbitrarily leaves
the result unchanged, so a pattern with enabled = false is evaluated
exactly like one without the field (and can itself produce the
result). -/
theorem formatUrl_ignores_pattern_enabled (env : RegexEngine)
    (s : UrlFormatterSettings) (url : String) (f : UrlPattern → Option Bool) :
    formatUrl env ⟨s.enabled, s.urlPatterns.map fun p => { p with enabled := f p }⟩ url =
      formatUrl env s url := by
  obtain ⟨e, ps⟩ := s
  show formatUrlList env url (ps.map _) = formatUrlList env url ps
  induction ps with
  | nil => rfl
  | cons p ps ih =>
    show formatUrlList env url ({ p with enabled := f p } :: ps.map _) = _
    simp only [formatUrlList, tryPattern_set_enabled]
    cases htp : tryPattern env url p <;> simp [htp, ih]

/-- C5: a pattern whose expression fails to compile is treated as
non-matching: formatUrl on a list headed by it equals formatUrl on the
tail, so evaluation continues with the remaining patterns. -/
theorem formatUrl_malformed_skipped (env : RegexEngine) (enabledFlag : Bool)
    (p : UrlPattern) (rest : List UrlPattern) (url : String)
    (h : env.exec p.pattern url = Except.error ()) :
    formatUrl env ⟨enabledFlag, p :: rest⟩ url =
      formatUrl env ⟨enabledFlag, rest⟩ url := by
  show formatUrlList env url (p :: rest) = formatUrlList env url rest
  simp [formatUrlList, tryPattern, patternBody, h]

/-- C5 witness: one syntactically invalid expression followed by one
valid matching expression yields the valid pattern's rendered
result. -/
theorem formatUrl_malformed_skipped_witness :
    formatUrl envBadGood (UrlFormatterSettings.mk true [patBad, patGood]) "u" =
      formatUrl envBadGood (UrlFormatterSettings.mk true [patGood]) "u" ∧
    formatUrl envBadGood (UrlFormatterSettings.mk true [patGood]) "u" =
      some "[G=G](u)" :=
  ⟨formatUrl_malformed_skipped envBadGood true patBad [patGood] "u" rfl, rfl⟩

/-- C6: every non-null formatUrl result is exactly the Markdown inline
link whose target is the original, unmodified input string. -/
theorem formatUrl_wraps_original (env : RegexEngine) (s : UrlFormatterSettings)
    (url r : String) (h : formatUrl env s url = some r) :
    ∃ label, r = "[" ++ label ++ "](" ++ url ++ ")" :=
  formatUrlList_wraps env url s.urlPatterns r h

/-- C6 witness: a concrete match whose non-null result wraps the
original input as the link target. -/
theorem formatUrl_wraps_original_witness :
    ∃ label, "[L](u)" = "[" ++ label ++ "](" ++ "u" ++ ")" :=
  formatUrl_wraps_original envM (UrlFormatterSettings.mk true [patL]) "u" "[L](u)" rfl

/-- C7 (code bug): with group 10 non-participating (undefined) and
group 1 capturing x, template the group-10 placeholder: the claim
requires every occurrence of the placeholder of the undefined group to
render as the empty string, but the earlier group-1 pass consumes its
prefix, so formatUrl renders x0 instead of the empty label. -/
theorem formatUrl_undefined_group_bug :
    formatUrl envTenUndef (UrlFormatterSettings.mk true [patTen]) "u" =
      some "[x0](u)" ∧
    renderTemplate "$10" (some "F" :: groupsTenUndef) ≠ "" :=
  ⟨rfl, by decide⟩

/-- C8: legacy migration on load.  Every persisted pattern lacking
formatString but possessing captureGroupIndex is loaded with the
synthesized formatString preposition + "$" + index + postposition
(missing preposition and postposition acting as the empty string),
name and pattern unchanged and the legacy fields dropped; and the
concrete legacy pattern named x with pattern p, captureGroupIndex 2
and preposition ID-colon-space loads as formatString ID-colon-space-$2. -/
theorem loadSettings_legacy_migration :
    (∀ (name pat : String) (i : Nat) (prep post : Option String) (en : Option Bool),
      migratePattern
        { name := name, pattern := pat, formatString := none,
          captureGroupIndex := some i, preposition := prep,
          postposition := post, enabled := en } =
        { name := name, pattern := pat,
          formatString := some (prep.getD "" ++ "$" ++ toString i ++ post.getD "") }) ∧
    (loadSettings (some { urlPatterns := some [legacyPatX] })).urlPatterns =
      [{ name := "x", pattern := "p", formatString := some "ID: $2" }] := by
  constructor
  · intro name pat i prep post en
    rcases prep with _ | pre <;> rcases post with _ | post <;>
      simp [migratePattern, if_empty_prepend, if_empty_append,
        String.empty_append, String.append_empty, String.append_assoc] <;>
      (intro h; subst h; simp [String.append_empty])
  · rfl

/-- C9 counterexample: a list whose only pattern carries enabled =
false — so no enabled pattern matches — still yields a non-null
result, because formatUrl never consults the enabled field. -/
theorem formatUrl_no_enabled_match_cex :
    patDisabledR.enabled = some false ∧
    formatUrl envM (UrlFormatterSettings.mk true [patDisabledR]) "u" =
      some "[R](u)" :=
  ⟨rfl, rfl⟩

/-- C9 (amended): when no pattern in the list — enabled or not —
obtains a match from the regex engine (in particular when the list is
empty), formatUrl returns null. -/
theorem formatUrl_none_of_no_match (env : RegexEngine) (s : UrlFormatterSettings)
    (url : String)
    (h : ∀ p ∈ s.urlPatterns, ∀ m, env.exec p.pattern url ≠ Except.ok (some m)) :
    formatUrl env s url = none :=
  formatUrlList_none_of_no_match env url s.urlPatterns h

/-- C9 witness: the empty pattern list returns null on any input. -/
theorem formatUrl_none_of_no_match_witness :
    formatUrl envNone (UrlFormatterSettings.mk true []) "https://x" = none :=
  formatUrl_none_of_no_match envNone (UrlFormatterSettings.mk true []) "https://x"
    (by simp)

/-- C10: an exception inside one pattern's iteration — patternBody
returning Except.error, covering a regex compile failure and the
TypeError from rendering an absent formatString — only skips that
pattern: the result equals formatUrl on the list without it.  All
embedded functions are total, so formatUrl always terminates with a
string or null. -/
theorem formatUrl_exception_skips_one (env : RegexEngine) (enabledFlag : Bool)
    (pre : List UrlPattern) (p : UrlPattern) (post : List UrlPattern) (url : String)
    (h : patternBody env url p = Except.error ()) :
    formatUrl env ⟨enabledFlag, pre ++ p :: post⟩ url =
      formatUrl env ⟨enabledFlag, pre ++ post⟩ url := by
  show formatUrlList env url (pre ++ p :: post) = formatUrlList env url (pre ++ post)
  induction pre with
  | nil =>
    show formatUrlList env url (p :: post) = formatUrlList env url post
    simp [formatUrlList, tryPattern, h]
  | cons r rs ih =>
    show formatUrlList env url (r :: (rs ++ p :: post)) =
      formatUrlList env url (r :: (rs ++ post))
    simp only [formatUrlList]
    cases htp : tryPattern env url r <;> simp [htp, ih]

/-- C10 witness: a matching pattern with an absent formatString throws
during rendering, is skipped, and the next pattern decides the
result. -/
theorem formatUrl_exception_skips_one_witness :
    formatUrl envM (UrlFormatterSettings.mk true [patNoFmt, patOk]) "u" =
      formatUrl envM (UrlFormatterSettings.mk true [patOk]) "u" :=
  formatUrl_exception_skips_one envM true [] patNoFmt [patOk] "u" rfl

end UrlFormatter
